import Mathlib

/-!
Shallow embedding of `src/backend/app.py` (a Flask speech-recognition
upload service) and proofs of the specification claims about it.

The module-level configuration (environment variables), the HTTP request,
the external collaborators (the `ffmpeg` subprocess and the
speech-recognition model) and the mutable global `_model` handle are made
explicit parameters; the `upload` endpoint becomes a pure function from
these to an HTTP response, a trace of side effects (files saved, external
invocations, files written) and the new model-handle state.
-/

/-- JSON values, as produced by `jsonify` / `json.dump`.  Numbers are
modelled as rationals (the Python floats only pass through unchanged). -/
inductive JsonV where
  | str (s : String)
  | num (q : Rat)
  | bool (b : Bool)
  | null
  | arr (xs : List JsonV)
  | obj (fields : List (String × JsonV))

/-- First value bound to a key in a JSON object field list. -/
def lookupField : List (String × JsonV) → String → Option JsonV
  | [], _ => none
  | (k', v) :: rest, k => if k' = k then some v else lookupField rest k

/-- Field access on a JSON object. -/
def getField : JsonV → String → Option JsonV
  | .obj fs, k => lookupField fs k
  | _, _ => none

/-- Key list of a JSON object. -/
def objKeys : JsonV → Option (List String)
  | .obj fs => some (fs.map Prod.fst)
  | _ => none

/-- ASCII lowercasing of one character, as Python `str.lower` acts on the
ASCII range (the extensions compared in the code are ASCII). -/
def pyLowerChar (c : Char) : Char :=
  if 'A' ≤ c ∧ c ≤ 'Z' then Char.ofNat (c.toNat + 32) else c

/-- Python `str.lower`, modelled on the ASCII range. -/
def pyLower (s : String) : String :=
  String.mk (s.data.map pyLowerChar)

/-- Whitespace characters removed by Python `str.strip`, modelled for the
ASCII whitespace characters. -/
def isPySpace (c : Char) : Bool :=
  c = ' ' || c = '\t' || c = '\n' || c = '\r' || c.toNat = 11 || c.toNat = 12

/-- Python `str.strip()`: drop leading and trailing whitespace. -/
def pyStrip (s : String) : String :=
  String.mk (((s.data.dropWhile isPySpace).reverse.dropWhile isPySpace).reverse)

/-- Index of the last occurrence of `c` in the list, counting from `i`. -/
def lastIdxAux (c : Char) : List Char → Nat → Option Nat
  | [], _ => none
  | x :: xs, i =>
    match lastIdxAux c xs (i + 1) with
    | some j => some j
    | none => if x = c then some i else none

/-- Index of the last occurrence of `c`, like Python `str.rfind` (as an
option instead of -1). -/
def lastIdx (c : Char) (cs : List Char) : Option Nat := lastIdxAux c cs 0

/-- The extension component of `os.path.splitext(p)[1]` (POSIX rules): the
suffix from the last dot after the last separator, empty when the name up
to that dot is all dots (so `.bashrc` has no extension). -/
def splitext_ext (p : String) : String :=
  let cs := p.data
  let sepIndex : Int := match lastIdx '/' cs with | some i => (i : Int) | none => -1
  let dotIndex : Int := match lastIdx '.' cs with | some i => (i : Int) | none => -1
  if sepIndex < dotIndex then
    let filenameIndex := (sepIndex + 1).toNat
    let hasNonDot := (List.range cs.length).any fun k =>
      decide (filenameIndex ≤ k) && decide ((k : Int) < dotIndex) && !(cs.getD k '.' = '.')
    if hasNonDot then String.mk (cs.drop dotIndex.toNat) else ""
  else ""

/-- Python slice `s[:n]`: the first `n` characters. -/
def strTake (s : String) (n : Nat) : String := String.mk (s.data.take n)

/-- Python `sep.join(xs)`. -/
def pyJoin (sep : String) : List String → String
  | [] => ""
  | [x] => x
  | x :: xs => x ++ sep ++ pyJoin sep xs

/-- `os.path.join(a, b)` for a single relative or absolute tail part. -/
def path_join (a b : String) : String :=
  if "/".data.isPrefixOf b.data then b
  else if a = "" then b
  else if "/".data.isSuffixOf a.data then a ++ b
  else a ++ "/" ++ b

/-- `os.path.basename(p)`: everything after the last separator. -/
def basename (p : String) : String :=
  match lastIdx '/' p.data with
  | some i => String.mk (p.data.drop (i + 1))
  | none => p

/-- The module-level configuration read from environment variables when
the module loads (lines 7-12 of `app.py`). -/
structure Config where
  UPLOAD_DIR : String
  RESULT_DIR : String
  ALLOWED_EXT : List String
  MODEL_SIZE : String
  DEVICE : String
  COMPUTE_TYPE : String

/-- The handle returned by constructing `WhisperModel(MODEL_SIZE,
device=..., compute_type=...)`; only its construction arguments are
observable to this code. -/
structure ModelHandle where
  modelSize : String
  device : String
  computeType : String
deriving DecidableEq

/-- The `WhisperModel` construction in `get_model` (lines 25-27):
`device_arg` and `compute_arg` replace the `"auto"` sentinel. -/
def mkModelHandle (cfg : Config) : ModelHandle :=
  { modelSize := cfg.MODEL_SIZE
    device := if cfg.DEVICE = "auto" then "cpu" else cfg.DEVICE
    computeType := if cfg.COMPUTE_TYPE = "auto" then "default" else cfg.COMPUTE_TYPE }

/-- `get_model` (lines 21-28).  The global `_model` is passed in and
returned explicitly: the result is the handle to use together with the new
value of `_model`. -/
def get_model (cfg : Config) (st : Option ModelHandle) : ModelHandle × Option ModelHandle :=
  match st with
  | some m => (m, some m)
  | none =>
    let m := mkModelHandle cfg
    (m, some m)

/-- `is_video` (lines 30-31). -/
def is_video (ext : String) : Bool :=
  [".mp4", ".mov", ".mkv", ".avi", ".wmv", ".m4v"].contains (pyLower ext)

/-- Result of `subprocess.run` on the ffmpeg command: return code and
captured stderr. -/
structure FfmpegRun where
  returncode : Int
  stderr : String

/-- One recognized segment as produced by `model.transcribe`. -/
structure Seg where
  start : Rat
  «end» : Rat
  text : String

/-- The `info` object returned by `model.transcribe`; the code reads it
only through `getattr(info, "duration", None)` and
`getattr(info, "language", language)`, so each attribute is optional. -/
structure TranscribeInfo where
  duration : Option Rat
  language : Option String

/-- Behaviour of the external collaborators during one request: what
`subprocess.run` returns for the ffmpeg command, and what
`model.transcribe(audio_path, language=..., task=...)` returns or raises. -/
structure ExtWorld where
  runFfmpeg : List String → FfmpegRun
  transcribe : ModelHandle → String → Option String → String → Except String (List Seg × TranscribeInfo)

/-- The argument vector built by `ffmpeg_extract_audio` (line 35). -/
def ffmpegCmd (in_path out_path : String) : List String :=
  ["ffmpeg", "-y", "-i", in_path, "-vn", "-ac", "1", "-ar", "16000", out_path]

/-- `ffmpeg_extract_audio` (lines 33-39): run ffmpeg, raise
`RuntimeError` with the first 500 characters of stderr on a nonzero
return code. -/
def ffmpeg_extract_audio (env : ExtWorld) (in_path out_path : String) : Except String Unit :=
  let res := env.runFfmpeg (ffmpegCmd in_path out_path)
  if res.returncode ≠ 0 then
    .error ("ffmpeg failed: " ++ strTake res.stderr 500)
  else
    .ok ()

/-- An HTTP response: status code and JSON body. -/
structure HttpResponse where
  status : Nat
  body : JsonV

/-- `healthz` (lines 41-43): a plain dict return, which Flask serves with
status 200. -/
def healthz : HttpResponse :=
  { status := 200, body := .obj [("ok", .bool true), ("service", .str "asr-backend")] }

/-- The uploaded file part (`request.files.get("file")`): the code only
reads its `filename` and calls `save`. -/
structure FilePart where
  filename : String

/-- An upload request: the optional `file` part and the `language` and
`task` form fields. -/
structure UploadRequest where
  file : Option FilePart
  formLanguage : Option String
  formTask : Option String

/-- Line 48: `request.form.get("language") or None` (an empty string
collapses to `None`). -/
def reqLanguage (req : UploadRequest) : Option String :=
  match req.formLanguage with
  | some s => if s = "" then none else some s
  | none => none

/-- Line 49: `request.form.get("task", "transcribe")`. -/
def reqTask (req : UploadRequest) : String :=
  req.formTask.getD "transcribe"

/-- Observable side effects of one request, in program order. -/
inductive Effect where
  | saveUpload (path : String)
  | ffmpegInvoke (cmd : List String) (out_path : String) (ok : Bool)
  | modelInvoke (audio_path : String) (language : Option String) (task : String)
  | writeJson (path : String) (content : JsonV)

/-- Files an effect leaves on disk: the saved upload, the WAV written by a
successful ffmpeg run, and the dumped JSON result. -/
def filesWritten : Effect → List String
  | .saveUpload p => [p]
  | .ffmpegInvoke _ out ok => if ok then [out] else []
  | .modelInvoke _ _ _ => []
  | .writeJson p _ => [p]

/-- All files a request's effect trace leaves on disk. -/
def filesLeft (es : List Effect) : List String :=
  (es.map filesWritten).flatten

/-- JSON for `getattr(info, "duration", None)` (line 79). -/
def optNumJson : Option Rat → JsonV
  | some q => .num q
  | none => .null

/-- JSON for `getattr(info, "language", language)` (line 80): the info
attribute when present, otherwise the request's language (or null). -/
def languageJson (info : TranscribeInfo) (reqLang : Option String) : JsonV :=
  match info.language with
  | some l => .str l
  | none =>
    match reqLang with
    | some l => .str l
    | none => .null

/-- One element of the `segs` list (line 75). -/
def segJson (s : Seg) : JsonV :=
  .obj [("start", .num s.start), ("end", .num s.«end»), ("text", .str s.text)]

/-- The `result` record built on a successful transcription
(lines 75-89): the `segs` dict list, the concatenated stripped text, and
the metadata object. -/
def mkResult (cfg : Config) (f : FilePart) (language : Option String) (task : String)
    (audio_path : String) (segments : List Seg) (info : TranscribeInfo) : JsonV :=
  .obj
    [ ("duration_sec", optNumJson info.duration)
    , ("language", languageJson info language)
    , ("segments", .arr (segments.map segJson))
    , ("text", .str (pyJoin " " (segments.map fun s => pyStrip s.text)))
    , ("meta", .obj
        [ ("source_filename", .str f.filename)
        , ("audio_path", .str (basename audio_path))
        , ("model", .str cfg.MODEL_SIZE)
        , ("task", .str task) ]) ]

/-- Outcome of one call to the upload endpoint: the HTTP response, the
ordered effect trace, and the new value of the global `_model`. -/
structure UploadOutcome where
  response : HttpResponse
  effects : List Effect
  modelState : Option ModelHandle

/-- The `try` block of `upload` (lines 72-97): get the model, transcribe,
build the result record, dump it to the results directory and answer with
200; a raised exception answers 500 with the message in `detail`. -/
def transcribeStep (cfg : Config) (env : ExtWorld) (st : Option ModelHandle)
    (job_id : String) (f : FilePart) (language : Option String) (task : String)
    (audio_path : String) (effs : List Effect) : UploadOutcome :=
  let pm := get_model cfg st
  let inv := Effect.modelInvoke audio_path language task
  match env.transcribe pm.1 audio_path language task with
  | .error e =>
    { response := { status := 500
                    body := .obj [("error", .str "transcription failed"), ("detail", .str e)] }
      effects := effs ++ [inv]
      modelState := pm.2 }
  | .ok (segments, info) =>
    let result := mkResult cfg f language task audio_path segments info
    let out_path := path_join cfg.RESULT_DIR (job_id ++ ".json")
    { response := { status := 200
                    body := .obj [("job_id", .str job_id), ("status", .str "done"),
                                  ("result", result)] }
      effects := effs ++ [inv, .writeJson out_path result]
      modelState := pm.2 }

/-- `upload` (lines 45-97).  `job_id` stands for the fresh
`str(uuid.uuid4())`; the outcome records the response, the effect trace
and the new `_model` state. -/
def upload (cfg : Config) (env : ExtWorld) (st : Option ModelHandle)
    (job_id : String) (req : UploadRequest) : UploadOutcome :=
  let language := reqLanguage req
  let task := reqTask req
  match req.file with
  | none =>
    { response := { status := 400, body := .obj [("error", .str "file is required")] }
      effects := []
      modelState := st }
  | some f =>
    if f.filename = "" then
      { response := { status := 400, body := .obj [("error", .str "file is required")] }
        effects := []
        modelState := st }
    else
      let ext := pyLower (splitext_ext f.filename)
      if ext ∉ cfg.ALLOWED_EXT then
        { response := { status := 400
                        body := .obj [("error", .str ("extension " ++ ext ++ " not allowed"))] }
          effects := []
          modelState := st }
      else
        let src_path := path_join cfg.UPLOAD_DIR (job_id ++ ext)
        let saveEff := Effect.saveUpload src_path
        if is_video ext then
          let audio_path := path_join cfg.UPLOAD_DIR (job_id ++ ".wav")
          match ffmpeg_extract_audio env src_path audio_path with
          | .error e =>
            { response := { status := 500
                            body := .obj [("error", .str "audio extraction failed"),
                                          ("detail", .str e)] }
              effects := [saveEff, .ffmpegInvoke (ffmpegCmd src_path audio_path) audio_path false]
              modelState := st }
          | .ok _ =>
            transcribeStep cfg env st job_id f language task audio_path
              [saveEff, .ffmpegInvoke (ffmpegCmd src_path audio_path) audio_path true]
        else
          transcribeStep cfg env st job_id f language task src_path [saveEff]

/-! Concrete fixtures used by witnesses and counterexamples. -/

/-- The configuration given by the environment-variable defaults of
lines 7-12. -/
def cfgD : Config :=
  { UPLOAD_DIR := "uploads", RESULT_DIR := "results"
    ALLOWED_EXT := [".mp3", ".wav", ".m4a", ".flac", ".mp4", ".mov", ".mkv"]
    MODEL_SIZE := "small", DEVICE := "auto", COMPUTE_TYPE := "auto" }

/-- External behaviour where ffmpeg succeeds and the model recognizes two
segments. -/
def envOk : ExtWorld :=
  { runFfmpeg := fun _ => { returncode := 0, stderr := "" }
    transcribe := fun _ _ _ _ => .ok
      ([ { start := 0, «end» := 1, text := " Hello " }
       , { start := 1, «end» := 2, text := "world." } ]
      , { duration := some 2, language := some "en" }) }

/-- External behaviour where ffmpeg exits with code 1 and stderr `boom`. -/
def envFfmpegFail : ExtWorld :=
  { runFfmpeg := fun _ => { returncode := 1, stderr := "boom" }
    transcribe := envOk.transcribe }

/-- External behaviour where the model raises `model exploded`. -/
def envModelFail : ExtWorld :=
  { runFfmpeg := fun _ => { returncode := 0, stderr := "" }
    transcribe := fun _ _ _ _ => .error "model exploded" }

/-- A request uploading a file named `name`, with no form fields. -/
def reqOf (name : String) : UploadRequest :=
  { file := some { filename := name }, formLanguage := none, formTask := none }

/-- A request with no file part. -/
def reqNoFile : UploadRequest :=
  { file := none, formLanguage := none, formTask := none }

/-! Reduction lemmas for the branches of `upload`. -/

/-- A raised transcription error answers 500 with the message in
`detail`, after invoking the model once. -/
theorem transcribeStep_error (cfg : Config) (env : ExtWorld) (st : Option ModelHandle)
    (job_id : String) (f : FilePart) (language : Option String) (task : String)
    (audio_path : String) (effs : List Effect) (e : String)
    (h : env.transcribe (get_model cfg st).1 audio_path language task = .error e) :
    transcribeStep cfg env st job_id f language task audio_path effs =
      { response := { status := 500
                      body := .obj [("error", .str "transcription failed"), ("detail", .str e)] }
        effects := effs ++ [.modelInvoke audio_path language task]
        modelState := (get_model cfg st).2 } := by
  unfold transcribeStep
  simp only [h]

/-- A successful transcription builds the result record, writes it to the
results directory and answers 200. -/
theorem transcribeStep_ok (cfg : Config) (env : ExtWorld) (st : Option ModelHandle)
    (job_id : String) (f : FilePart) (language : Option String) (task : String)
    (audio_path : String) (effs : List Effect)
    (segments : List Seg) (info : TranscribeInfo)
    (h : env.transcribe (get_model cfg st).1 audio_path language task = .ok (segments, info)) :
    transcribeStep cfg env st job_id f language task audio_path effs =
      (let result := mkResult cfg f language task audio_path segments info
      { response := { status := 200
                      body := .obj [("job_id", .str job_id), ("status", .str "done"),
                                    ("result", result)] }
        effects := effs ++ [.modelInvoke audio_path language task,
                            .writeJson (path_join cfg.RESULT_DIR (job_id ++ ".json")) result]
        modelState := (get_model cfg st).2 }) := by
  unfold transcribeStep
  simp only [h]

/-- An accepted non-video upload goes straight to transcription on the
saved upload path. -/
theorem upload_accepted_nonvideo (cfg : Config) (env : ExtWorld) (st : Option ModelHandle)
    (job_id : String) (p : FilePart) (fl ft : Option String)
    (hn : ¬ p.filename = "")
    (hmem : pyLower (splitext_ext p.filename) ∈ cfg.ALLOWED_EXT)
    (hv : is_video (pyLower (splitext_ext p.filename)) = false) :
    upload cfg env st job_id { file := some p, formLanguage := fl, formTask := ft } =
      transcribeStep cfg env st job_id p
        (reqLanguage { file := some p, formLanguage := fl, formTask := ft })
        (reqTask { file := some p, formLanguage := fl, formTask := ft })
        (path_join cfg.UPLOAD_DIR (job_id ++ pyLower (splitext_ext p.filename)))
        [.saveUpload (path_join cfg.UPLOAD_DIR (job_id ++ pyLower (splitext_ext p.filename)))] := by
  unfold upload
  simp [hn, hmem, hv]

/-- An accepted video upload whose ffmpeg run fails answers 500 with the
ffmpeg message in `detail` and never reaches the model. -/
theorem upload_accepted_video_ffmpeg_fail (cfg : Config) (env : ExtWorld)
    (st : Option ModelHandle) (job_id : String) (p : FilePart) (fl ft : Option String)
    (hn : ¬ p.filename = "")
    (hmem : pyLower (splitext_ext p.filename) ∈ cfg.ALLOWED_EXT)
    (hv : is_video (pyLower (splitext_ext p.filename)) = true)
    (hrc : (env.runFfmpeg (ffmpegCmd
        (path_join cfg.UPLOAD_DIR (job_id ++ pyLower (splitext_ext p.filename)))
        (path_join cfg.UPLOAD_DIR (job_id ++ ".wav")))).returncode ≠ 0) :
    upload cfg env st job_id { file := some p, formLanguage := fl, formTask := ft } =
      (let src_path := path_join cfg.UPLOAD_DIR (job_id ++ pyLower (splitext_ext p.filename))
       let audio_path := path_join cfg.UPLOAD_DIR (job_id ++ ".wav")
       { response := { status := 500
                       body := .obj [("error", .str "audio extraction failed"),
                                     ("detail", .str ("ffmpeg failed: " ++
                                       strTake (env.runFfmpeg (ffmpegCmd src_path audio_path)).stderr 500))] }
         effects := [.saveUpload src_path,
                     .ffmpegInvoke (ffmpegCmd src_path audio_path) audio_path false]
         modelState := st }) := by
  unfold upload ffmpeg_extract_audio
  simp [hn, hmem, hv, hrc]

/-- An accepted video upload whose ffmpeg run succeeds transcribes the
extracted WAV path. -/
theorem upload_accepted_video_ok (cfg : Config) (env : ExtWorld)
    (st : Option ModelHandle) (job_id : String) (p : FilePart) (fl ft : Option String)
    (hn : ¬ p.filename = "")
    (hmem : pyLower (splitext_ext p.filename) ∈ cfg.ALLOWED_EXT)
    (hv : is_video (pyLower (splitext_ext p.filename)) = true)
    (hrc : (env.runFfmpeg (ffmpegCmd
        (path_join cfg.UPLOAD_DIR (job_id ++ pyLower (splitext_ext p.filename)))
        (path_join cfg.UPLOAD_DIR (job_id ++ ".wav")))).returncode = 0) :
    upload cfg env st job_id { file := some p, formLanguage := fl, formTask := ft } =
      (let src_path := path_join cfg.UPLOAD_DIR (job_id ++ pyLower (splitext_ext p.filename))
       let audio_path := path_join cfg.UPLOAD_DIR (job_id ++ ".wav")
       transcribeStep cfg env st job_id p
         (reqLanguage { file := some p, formLanguage := fl, formTask := ft })
         (reqTask { file := some p, formLanguage := fl, formTask := ft })
         audio_path
         [.saveUpload src_path,
          .ffmpegInvoke (ffmpegCmd src_path audio_path) audio_path true]) := by
  unfold upload ffmpeg_extract_audio
  simp [hn, hmem, hv, hrc]

/-- Whatever the model returns, the transcription step stores back
exactly the handle state produced by get_model. -/
theorem transcribeStep_modelState (cfg : Config) (env : ExtWorld) (st : Option ModelHandle)
    (job_id : String) (f : FilePart) (language : Option String) (task : String)
    (audio_path : String) (effs : List Effect) :
    (transcribeStep cfg env st job_id f language task audio_path effs).modelState =
      (get_model cfg st).2 := by
  unfold transcribeStep
  rcases h : env.transcribe (get_model cfg st).1 audio_path language task with e | ⟨segs, info⟩ <;>
    simp [h]

/-- Claim C1: an upload request carrying a file part whose lowercased
filename extension is not in ALLOWED_EXT is answered with HTTP 400 and a
JSON error body, and neither ffmpeg nor the speech-recognition model is
invoked for that request. -/
theorem C1_invalid_extension_400 (cfg : Config) (env : ExtWorld)
    (st : Option ModelHandle) (job_id : String) (p : FilePart)
    (fl ft : Option String)
    (h : pyLower (splitext_ext p.filename) ∉ cfg.ALLOWED_EXT) :
    (upload cfg env st job_id { file := some p, formLanguage := fl, formTask := ft }).response.status = 400 ∧
    (∃ msg, getField (upload cfg env st job_id { file := some p, formLanguage := fl, formTask := ft }).response.body "error" = some (.str msg)) ∧
    (upload cfg env st job_id { file := some p, formLanguage := fl, formTask := ft }).effects = [] := by
  by_cases hn : p.filename = ""
  · unfold upload
    simp [hn, getField, lookupField]
  · unfold upload
    simp [hn, h, getField, lookupField]

/-- Witness for C1 at a concrete request uploading `x.txt` under the
default configuration. -/
theorem C1_witness :
    pyLower (splitext_ext "x.txt") ∉ cfgD.ALLOWED_EXT ∧
    (upload cfgD envOk none "j" (reqOf "x.txt")).response.status = 400 ∧
    (∃ msg, getField (upload cfgD envOk none "j" (reqOf "x.txt")).response.body "error" = some (.str msg)) ∧
    (upload cfgD envOk none "j" (reqOf "x.txt")).effects = [] := by
  refine ⟨by decide, ?_⟩
  exact C1_invalid_extension_400 cfgD envOk none "j" { filename := "x.txt" } none none (by decide)

/-- Claim C9: an upload request with no file part is answered HTTP 400
with body saying the file is required, and no effect touches the disk. -/
theorem C9_missing_file_400 (cfg : Config) (env : ExtWorld)
    (st : Option ModelHandle) (job_id : String) (req : UploadRequest)
    (h : req.file = none) :
    (upload cfg env st job_id req).response.status = 400 ∧
    (upload cfg env st job_id req).response.body = .obj [("error", .str "file is required")] ∧
    (upload cfg env st job_id req).effects = [] ∧
    filesLeft (upload cfg env st job_id req).effects = [] := by
  unfold upload
  simp [h, filesLeft]

/-- Witness for C9 at a concrete request with no file part. -/
theorem C9_witness :
    reqNoFile.file = none ∧
    (upload cfgD envOk none "j" reqNoFile).response.status = 400 ∧
    (upload cfgD envOk none "j" reqNoFile).response.body = .obj [("error", .str "file is required")] ∧
    (upload cfgD envOk none "j" reqNoFile).effects = [] ∧
    filesLeft (upload cfgD envOk none "j" reqNoFile).effects = [] := by
  refine ⟨rfl, ?_⟩
  exact C9_missing_file_400 cfgD envOk none "j" reqNoFile rfl

/-- Claim C7: the model handle is a lazily-initialized singleton.  A call
to get_model with the handle unset constructs it and stores it; a call
with the handle set returns that same handle and leaves it unchanged; and
an upload request either leaves the shared state untouched or sets it to
exactly what get_model yields, so once set the handle never changes. -/
theorem C7_lazy_singleton (cfg : Config) (m : ModelHandle) (env : ExtWorld)
    (st : Option ModelHandle) (job_id : String) (req : UploadRequest) :
    get_model cfg none = (mkModelHandle cfg, some (mkModelHandle cfg)) ∧
    get_model cfg (some m) = (m, some m) ∧
    ((upload cfg env st job_id req).modelState = st ∨
      (upload cfg env st job_id req).modelState = (get_model cfg st).2) ∧
    (upload cfg env (some m) job_id req).modelState = some m := by
  have key : ∀ st' : Option ModelHandle,
      (upload cfg env st' job_id req).modelState = st' ∨
      (upload cfg env st' job_id req).modelState = (get_model cfg st').2 := by
    intro st'
    rcases req with ⟨file, fl, ft⟩
    rcases file with _ | p
    · left; rfl
    · by_cases hn : p.filename = ""
      · left
        unfold upload
        simp [hn]
      · by_cases hmem : pyLower (splitext_ext p.filename) ∈ cfg.ALLOWED_EXT
        · by_cases hv : is_video (pyLower (splitext_ext p.filename)) = true
          · by_cases hrc : (env.runFfmpeg (ffmpegCmd
                (path_join cfg.UPLOAD_DIR (job_id ++ pyLower (splitext_ext p.filename)))
                (path_join cfg.UPLOAD_DIR (job_id ++ ".wav")))).returncode = 0
            · right
              rw [upload_accepted_video_ok cfg env st' job_id p fl ft hn hmem hv hrc]
              exact transcribeStep_modelState cfg env st' job_id p _ _ _ _
            · left
              rw [upload_accepted_video_ffmpeg_fail cfg env st' job_id p fl ft hn hmem hv hrc]
          · right
            rw [upload_accepted_nonvideo cfg env st' job_id p fl ft hn hmem
                (Bool.not_eq_true _ |>.mp hv)]
            exact transcribeStep_modelState cfg env st' job_id p _ _ _ _
        · left
          unfold upload
          simp [hn, hmem]
  refine ⟨rfl, rfl, key st, ?_⟩
  rcases key (some m) with h | h
  · exact h
  · exact h

/-- Claim C2: a failure raised by ffmpeg or by the speech-recognition
model aborts the request with HTTP 500 and a JSON body whose detail field
carries the exception message; when ffmpeg fails the model is never
invoked, so the first error is the one propagated. -/
theorem C2_external_failure_500 (cfg : Config) (env : ExtWorld)
    (st : Option ModelHandle) (job_id : String) (p : FilePart) (fl ft : Option String)
    (ext src wav : String)
    (hn : ¬ p.filename = "")
    (hmem : pyLower (splitext_ext p.filename) ∈ cfg.ALLOWED_EXT)
    (hext : ext = pyLower (splitext_ext p.filename))
    (hsrc : src = path_join cfg.UPLOAD_DIR (job_id ++ ext))
    (hwav : wav = path_join cfg.UPLOAD_DIR (job_id ++ ".wav")) :
    (is_video ext = true →
      (env.runFfmpeg (ffmpegCmd src wav)).returncode ≠ 0 →
      (upload cfg env st job_id { file := some p, formLanguage := fl, formTask := ft }).response.status = 500 ∧
      getField (upload cfg env st job_id { file := some p, formLanguage := fl, formTask := ft }).response.body "detail" =
        some (.str ("ffmpeg failed: " ++ strTake (env.runFfmpeg (ffmpegCmd src wav)).stderr 500)) ∧
      (∀ a l t, Effect.modelInvoke a l t ∉
        (upload cfg env st job_id { file := some p, formLanguage := fl, formTask := ft }).effects)) ∧
    (∀ e,
      (is_video ext = true → (env.runFfmpeg (ffmpegCmd src wav)).returncode = 0) →
      env.transcribe (get_model cfg st).1 (if is_video ext then wav else src)
        (reqLanguage { file := some p, formLanguage := fl, formTask := ft })
        (reqTask { file := some p, formLanguage := fl, formTask := ft }) = .error e →
      (upload cfg env st job_id { file := some p, formLanguage := fl, formTask := ft }).response.status = 500 ∧
      getField (upload cfg env st job_id { file := some p, formLanguage := fl, formTask := ft }).response.body "detail" =
        some (.str e)) := by
  subst hext hsrc hwav
  constructor
  · intro hv hrc
    rw [upload_accepted_video_ffmpeg_fail cfg env st job_id p fl ft hn hmem hv hrc]
    refine ⟨rfl, rfl, ?_⟩
    intro a l t hin
    simp at hin
  · intro e hfok htr
    by_cases hv : is_video (pyLower (splitext_ext p.filename)) = true
    · rw [if_pos hv] at htr
      rw [upload_accepted_video_ok cfg env st job_id p fl ft hn hmem hv (hfok hv)]
      rw [transcribeStep_error cfg env st job_id p _ _ _ _ e htr]
      exact ⟨rfl, rfl⟩
    · rw [if_neg hv] at htr
      rw [upload_accepted_nonvideo cfg env st job_id p fl ft hn hmem
          (Bool.not_eq_true _ |>.mp hv)]
      rw [transcribeStep_error cfg env st job_id p _ _ _ _ e htr]
      exact ⟨rfl, rfl⟩

/-- Witness for C2: a concrete failing ffmpeg run on `v.mp4` and a
concrete failing transcription on `a.mp3`. -/
theorem C2_witness :
    ((upload cfgD envFfmpegFail none "j" (reqOf "v.mp4")).response.status = 500 ∧
     getField (upload cfgD envFfmpegFail none "j" (reqOf "v.mp4")).response.body "detail" =
       some (.str "ffmpeg failed: boom") ∧
     (∀ a l t, Effect.modelInvoke a l t ∉
       (upload cfgD envFfmpegFail none "j" (reqOf "v.mp4")).effects)) ∧
    ((upload cfgD envModelFail none "j" (reqOf "a.mp3")).response.status = 500 ∧
     getField (upload cfgD envModelFail none "j" (reqOf "a.mp3")).response.body "detail" =
       some (.str "model exploded")) := by
  constructor
  · have h := (C2_external_failure_500 cfgD envFfmpegFail none "j" { filename := "v.mp4" }
      none none ".mp4" "uploads/j.mp4" "uploads/j.wav"
      (by decide) (by decide) (by decide) (by decide) (by decide)).1 (by decide) (by decide)
    have hs : ("ffmpeg failed: " ++ strTake "boom" 500) = "ffmpeg failed: boom" := by decide
    refine ⟨h.1, ?_, h.2.2⟩
    have h2 := h.2.1
    rw [show (strTake (envFfmpegFail.runFfmpeg (ffmpegCmd "uploads/j.mp4" "uploads/j.wav")).stderr 500)
        = strTake "boom" 500 from rfl] at h2
    rw [hs] at h2
    exact h2
  · have h := (C2_external_failure_500 cfgD envModelFail none "j" { filename := "a.mp3" }
      none none ".mp3" "uploads/j.mp3" "uploads/j.wav"
      (by decide) (by decide) (by decide) (by decide) (by decide)).2 "model exploded"
      (fun _ => rfl) rfl
    exact h

/-- The transcription step appends to the incoming effects exactly one
model invocation, followed by one result write when it succeeds. -/
theorem transcribeStep_effects_shape (cfg : Config) (env : ExtWorld) (st : Option ModelHandle)
    (job_id : String) (f : FilePart) (language : Option String) (task : String)
    (audio_path : String) (effs : List Effect) :
    (transcribeStep cfg env st job_id f language task audio_path effs).effects =
      effs ++ [Effect.modelInvoke audio_path language task] ∨
    ∃ pth ct, (transcribeStep cfg env st job_id f language task audio_path effs).effects =
      effs ++ [Effect.modelInvoke audio_path language task, Effect.writeJson pth ct] := by
  rcases h : env.transcribe (get_model cfg st).1 audio_path language task with e | ⟨segs, info⟩
  · left
    rw [transcribeStep_error cfg env st job_id f language task audio_path effs e h]
  · right
    rw [transcribeStep_ok cfg env st job_id f language task audio_path effs segs info h]
    exact ⟨_, _, rfl⟩

/-- Claim C3: an accepted video upload invokes ffmpeg with the mono
16 kHz WAV extraction arguments and, when the extraction succeeds, runs
the model on the extracted WAV path; an accepted non-video upload runs
the model directly on the saved upload path and never invokes ffmpeg. -/
theorem C3_video_conversion_routing (cfg : Config) (env : ExtWorld)
    (st : Option ModelHandle) (job_id : String) (p : FilePart) (fl ft : Option String)
    (ext src wav : String)
    (hn : ¬ p.filename = "")
    (hmem : pyLower (splitext_ext p.filename) ∈ cfg.ALLOWED_EXT)
    (hext : ext = pyLower (splitext_ext p.filename))
    (hsrc : src = path_join cfg.UPLOAD_DIR (job_id ++ ext))
    (hwav : wav = path_join cfg.UPLOAD_DIR (job_id ++ ".wav")) :
    (is_video ext = true →
      (∃ ok, Effect.ffmpegInvoke ["ffmpeg", "-y", "-i", src, "-vn", "-ac", "1", "-ar", "16000", wav] wav ok ∈
        (upload cfg env st job_id { file := some p, formLanguage := fl, formTask := ft }).effects) ∧
      ((env.runFfmpeg (ffmpegCmd src wav)).returncode = 0 →
        Effect.modelInvoke wav (reqLanguage { file := some p, formLanguage := fl, formTask := ft })
            (reqTask { file := some p, formLanguage := fl, formTask := ft }) ∈
          (upload cfg env st job_id { file := some p, formLanguage := fl, formTask := ft }).effects)) ∧
    (is_video ext = false →
      Effect.modelInvoke src (reqLanguage { file := some p, formLanguage := fl, formTask := ft })
          (reqTask { file := some p, formLanguage := fl, formTask := ft }) ∈
        (upload cfg env st job_id { file := some p, formLanguage := fl, formTask := ft }).effects ∧
      (∀ c op ok, Effect.ffmpegInvoke c op ok ∉
        (upload cfg env st job_id { file := some p, formLanguage := fl, formTask := ft }).effects)) := by
  subst hext hsrc hwav
  constructor
  · intro hv
    by_cases hrc : (env.runFfmpeg (ffmpegCmd
        (path_join cfg.UPLOAD_DIR (job_id ++ pyLower (splitext_ext p.filename)))
        (path_join cfg.UPLOAD_DIR (job_id ++ ".wav")))).returncode = 0
    · rw [upload_accepted_video_ok cfg env st job_id p fl ft hn hmem hv hrc]
      constructor
      · refine ⟨true, ?_⟩
        rcases transcribeStep_effects_shape cfg env st job_id p
            (reqLanguage { file := some p, formLanguage := fl, formTask := ft })
            (reqTask { file := some p, formLanguage := fl, formTask := ft })
            (path_join cfg.UPLOAD_DIR (job_id ++ ".wav"))
            [.saveUpload (path_join cfg.UPLOAD_DIR (job_id ++ pyLower (splitext_ext p.filename))),
             .ffmpegInvoke (ffmpegCmd (path_join cfg.UPLOAD_DIR (job_id ++ pyLower (splitext_ext p.filename)))
               (path_join cfg.UPLOAD_DIR (job_id ++ ".wav")))
               (path_join cfg.UPLOAD_DIR (job_id ++ ".wav")) true] with hsh | ⟨pth, ct, hsh⟩ <;>
          rw [hsh] <;> simp [ffmpegCmd]
      · intro _
        rcases transcribeStep_effects_shape cfg env st job_id p
            (reqLanguage { file := some p, formLanguage := fl, formTask := ft })
            (reqTask { file := some p, formLanguage := fl, formTask := ft })
            (path_join cfg.UPLOAD_DIR (job_id ++ ".wav"))
            [.saveUpload (path_join cfg.UPLOAD_DIR (job_id ++ pyLower (splitext_ext p.filename))),
             .ffmpegInvoke (ffmpegCmd (path_join cfg.UPLOAD_DIR (job_id ++ pyLower (splitext_ext p.filename)))
               (path_join cfg.UPLOAD_DIR (job_id ++ ".wav")))
               (path_join cfg.UPLOAD_DIR (job_id ++ ".wav")) true] with hsh | ⟨pth, ct, hsh⟩ <;>
          rw [hsh] <;> simp
    · rw [upload_accepted_video_ffmpeg_fail cfg env st job_id p fl ft hn hmem hv hrc]
      constructor
      · exact ⟨false, by simp [ffmpegCmd]⟩
      · intro h0
        exact absurd h0 hrc
  · intro hv
    rw [upload_accepted_nonvideo cfg env st job_id p fl ft hn hmem hv]
    rcases transcribeStep_effects_shape cfg env st job_id p
        (reqLanguage { file := some p, formLanguage := fl, formTask := ft })
        (reqTask { file := some p, formLanguage := fl, formTask := ft })
        (path_join cfg.UPLOAD_DIR (job_id ++ pyLower (splitext_ext p.filename)))
        [.saveUpload (path_join cfg.UPLOAD_DIR (job_id ++ pyLower (splitext_ext p.filename)))] with
      hsh | ⟨pth, ct, hsh⟩ <;>
    · rw [hsh]
      constructor
      · simp
      · intro c op ok
        simp

/-- Witness for C3: a concrete video upload `v.mp4` and a concrete audio
upload `a.mp3` under the default configuration with healthy externals. -/
theorem C3_witness :
    ((∃ ok, Effect.ffmpegInvoke
        ["ffmpeg", "-y", "-i", "uploads/j.mp4", "-vn", "-ac", "1", "-ar", "16000", "uploads/j.wav"]
        "uploads/j.wav" ok ∈ (upload cfgD envOk none "j" (reqOf "v.mp4")).effects) ∧
     Effect.modelInvoke "uploads/j.wav" none "transcribe" ∈
       (upload cfgD envOk none "j" (reqOf "v.mp4")).effects) ∧
    (Effect.modelInvoke "uploads/j.mp3" none "transcribe" ∈
       (upload cfgD envOk none "j" (reqOf "a.mp3")).effects ∧
     (∀ c op ok, Effect.ffmpegInvoke c op ok ∉
       (upload cfgD envOk none "j" (reqOf "a.mp3")).effects)) := by
  constructor
  · have h := (C3_video_conversion_routing cfgD envOk none "j" { filename := "v.mp4" }
      none none ".mp4" "uploads/j.mp4" "uploads/j.wav"
      (by decide) (by decide) (by decide) (by decide) (by decide)).1 rfl
    exact ⟨h.1, h.2 rfl⟩
  · have h := (C3_video_conversion_routing cfgD envOk none "j" { filename := "a.mp3" }
      none none ".mp3" "uploads/j.mp3" "uploads/j.wav"
      (by decide) (by decide) (by decide) (by decide) (by decide)).2 rfl
    exact h

/-- Any 200 answer from upload comes from the success branch of the try
block: the body is the done envelope around a result record, the same
record was just written to the results directory, and no other JSON write
happened. -/
theorem upload_success_form (cfg : Config) (env : ExtWorld) (st : Option ModelHandle)
    (job_id : String) (req : UploadRequest)
    (h200 : (upload cfg env st job_id req).response.status = 200) :
    ∃ f audio_path segments info effs0,
      req.file = some f ∧
      (upload cfg env st job_id req).response.body =
        .obj [("job_id", .str job_id), ("status", .str "done"),
              ("result", mkResult cfg f (reqLanguage req) (reqTask req) audio_path segments info)] ∧
      (upload cfg env st job_id req).effects =
        effs0 ++ [.modelInvoke audio_path (reqLanguage req) (reqTask req),
                  .writeJson (path_join cfg.RESULT_DIR (job_id ++ ".json"))
                    (mkResult cfg f (reqLanguage req) (reqTask req) audio_path segments info)] ∧
      (∀ pth ct, Effect.writeJson pth ct ∉ effs0) := by
  rcases req with ⟨file, fl, ft⟩
  rcases file with _ | p
  · exact absurd h200 (by unfold upload; simp)
  · by_cases hn : p.filename = ""
    · refine absurd h200 ?_
      unfold upload
      simp [hn]
    · by_cases hmem : pyLower (splitext_ext p.filename) ∈ cfg.ALLOWED_EXT
      · by_cases hv : is_video (pyLower (splitext_ext p.filename)) = true
        · by_cases hrc : (env.runFfmpeg (ffmpegCmd
              (path_join cfg.UPLOAD_DIR (job_id ++ pyLower (splitext_ext p.filename)))
              (path_join cfg.UPLOAD_DIR (job_id ++ ".wav")))).returncode = 0
          · rw [upload_accepted_video_ok cfg env st job_id p fl ft hn hmem hv hrc] at h200 ⊢
            rcases htr : env.transcribe (get_model cfg st).1
                (path_join cfg.UPLOAD_DIR (job_id ++ ".wav"))
                (reqLanguage { file := some p, formLanguage := fl, formTask := ft })
                (reqTask { file := some p, formLanguage := fl, formTask := ft }) with e | ⟨segs, info⟩
            · rw [transcribeStep_error cfg env st job_id p _ _ _ _ e htr] at h200
              simp at h200
            · rw [transcribeStep_ok cfg env st job_id p _ _ _ _ segs info htr]
              refine ⟨p, _, segs, info, _, rfl, rfl, rfl, ?_⟩
              intro pth ct hin
              simp at hin
          · rw [upload_accepted_video_ffmpeg_fail cfg env st job_id p fl ft hn hmem hv hrc] at h200
            simp at h200
        · rw [upload_accepted_nonvideo cfg env st job_id p fl ft hn hmem
              (Bool.not_eq_true _ |>.mp hv)] at h200 ⊢
          rcases htr : env.transcribe (get_model cfg st).1
              (path_join cfg.UPLOAD_DIR (job_id ++ pyLower (splitext_ext p.filename)))
              (reqLanguage { file := some p, formLanguage := fl, formTask := ft })
              (reqTask { file := some p, formLanguage := fl, formTask := ft }) with e | ⟨segs, info⟩
          · rw [transcribeStep_error cfg env st job_id p _ _ _ _ e htr] at h200
            simp at h200
          · rw [transcribeStep_ok cfg env st job_id p _ _ _ _ segs info htr]
            refine ⟨p, _, segs, info, _, rfl, rfl, rfl, ?_⟩
            intro pth ct hin
            simp at hin
      · refine absurd h200 ?_
        unfold upload
        simp [hn, hmem]

/-- Claim C4: a successful upload's result record carries exactly a
duration, a language, a list of start/end/text segments, a concatenated
text and a metadata object with source filename, audio path basename,
model size and task. -/
theorem C4_result_record_shape (cfg : Config) (env : ExtWorld) (st : Option ModelHandle)
    (job_id : String) (req : UploadRequest)
    (h200 : (upload cfg env st job_id req).response.status = 200) :
    ∃ r, getField (upload cfg env st job_id req).response.body "result" = some r ∧
      objKeys r = some ["duration_sec", "language", "segments", "text", "meta"] ∧
      (∃ ss, getField r "segments" = some (.arr ss) ∧
        ∀ x ∈ ss, objKeys x = some ["start", "end", "text"]) ∧
      (∃ mt, getField r "meta" = some mt ∧
        objKeys mt = some ["source_filename", "audio_path", "model", "task"]) := by
  obtain ⟨f, ap, segs, info, effs0, hf, hbody, heffs, hnw⟩ :=
    upload_success_form cfg env st job_id req h200
  refine ⟨mkResult cfg f (reqLanguage req) (reqTask req) ap segs info, ?_, rfl, ?_, ?_⟩
  · rw [hbody]
    rfl
  · refine ⟨segs.map segJson, rfl, ?_⟩
    intro x hx
    simp only [List.mem_map] at hx
    obtain ⟨s, hs, rfl⟩ := hx
    rfl
  · exact ⟨_, rfl, rfl⟩

/-- Witness for C4 at a concrete successful upload of `a.mp3`. -/
theorem C4_witness :
    (upload cfgD envOk none "j" (reqOf "a.mp3")).response.status = 200 ∧
    (∃ r, getField (upload cfgD envOk none "j" (reqOf "a.mp3")).response.body "result" = some r ∧
      objKeys r = some ["duration_sec", "language", "segments", "text", "meta"] ∧
      (∃ ss, getField r "segments" = some (.arr ss) ∧
        ∀ x ∈ ss, objKeys x = some ["start", "end", "text"]) ∧
      (∃ mt, getField r "meta" = some mt ∧
        objKeys mt = some ["source_filename", "audio_path", "model", "task"])) :=
  ⟨rfl, C4_result_record_shape cfgD envOk none "j" (reqOf "a.mp3") rfl⟩

/-- The text a segment dict carries in the final JSON. -/
def segTextOf (j : JsonV) : String :=
  match getField j "text" with
  | some (.str s) => s
  | _ => ""

/-- Claim C5: in a successful result record, the text field is the
segment texts, each stripped of leading and trailing whitespace, joined
in segment order with single spaces. -/
theorem C5_text_join_of_segments (cfg : Config) (env : ExtWorld) (st : Option ModelHandle)
    (job_id : String) (req : UploadRequest)
    (h200 : (upload cfg env st job_id req).response.status = 200) :
    ∃ r ss t, getField (upload cfg env st job_id req).response.body "result" = some r ∧
      getField r "segments" = some (.arr ss) ∧
      getField r "text" = some (.str t) ∧
      t = pyJoin " " (ss.map fun j => pyStrip (segTextOf j)) := by
  obtain ⟨f, ap, segs, info, effs0, hf, hbody, heffs, hnw⟩ :=
    upload_success_form cfg env st job_id req h200
  refine ⟨mkResult cfg f (reqLanguage req) (reqTask req) ap segs info,
    segs.map segJson, pyJoin " " (segs.map fun s => pyStrip (Seg.text s)), ?_, rfl, rfl, ?_⟩
  · rw [hbody]
    rfl
  · rw [List.map_map]
    rfl

/-- Witness for C5 at a concrete successful upload of `song.wav` whose
segments carry padded text. -/
theorem C5_witness :
    (upload cfgD envOk none "j" (reqOf "song.wav")).response.status = 200 ∧
    (∃ r ss t, getField (upload cfgD envOk none "j" (reqOf "song.wav")).response.body "result" = some r ∧
      getField r "segments" = some (.arr ss) ∧
      getField r "text" = some (.str t) ∧
      t = pyJoin " " (ss.map fun j => pyStrip (segTextOf j))) :=
  ⟨rfl, C5_text_join_of_segments cfgD envOk none "j" (reqOf "song.wav") rfl⟩

/-- Claim C10: the JSON document persisted under the request's job id is
exactly the result object returned in the response body: the one write to
the results directory carries that object and there is no other JSON
write. -/
theorem C10_persisted_equals_response (cfg : Config) (env : ExtWorld) (st : Option ModelHandle)
    (job_id : String) (req : UploadRequest)
    (h200 : (upload cfg env st job_id req).response.status = 200) :
    ∃ r, getField (upload cfg env st job_id req).response.body "result" = some r ∧
      Effect.writeJson (path_join cfg.RESULT_DIR (job_id ++ ".json")) r ∈
        (upload cfg env st job_id req).effects ∧
      (∀ pth ct, Effect.writeJson pth ct ∈ (upload cfg env st job_id req).effects →
        pth = path_join cfg.RESULT_DIR (job_id ++ ".json") ∧ ct = r) := by
  obtain ⟨f, ap, segs, info, effs0, hf, hbody, heffs, hnw⟩ :=
    upload_success_form cfg env st job_id req h200
  refine ⟨mkResult cfg f (reqLanguage req) (reqTask req) ap segs info, ?_, ?_, ?_⟩
  · rw [hbody]
    rfl
  · rw [heffs]
    simp
  · intro pth ct hin
    rw [heffs] at hin
    rcases List.mem_append.mp hin with hin0 | hin1
    · exact absurd hin0 (hnw pth ct)
    · simp only [List.mem_cons, List.not_mem_nil, or_false] at hin1
      rcases hin1 with h1 | h1
      · exact absurd h1 (by simp)
      · injection h1 with h2 h3
        exact ⟨h2, h3⟩

/-- Witness for C10 at a concrete successful upload of `v.mp4`. -/
theorem C10_witness :
    (upload cfgD envOk none "j" (reqOf "v.mp4")).response.status = 200 ∧
    (∃ r, getField (upload cfgD envOk none "j" (reqOf "v.mp4")).response.body "result" = some r ∧
      Effect.writeJson (path_join cfgD.RESULT_DIR ("j" ++ ".json")) r ∈
        (upload cfgD envOk none "j" (reqOf "v.mp4")).effects ∧
      (∀ pth ct, Effect.writeJson pth ct ∈ (upload cfgD envOk none "j" (reqOf "v.mp4")).effects →
        pth = path_join cfgD.RESULT_DIR ("j" ++ ".json") ∧ ct = r)) :=
  ⟨rfl, C10_persisted_equals_response cfgD envOk none "j" (reqOf "v.mp4") rfl⟩

/-- Counterexample to claim C6 as stated: a successful upload of `a.mp3`
under the default configuration leaves the saved upload file in the
uploads directory in addition to the JSON result file, so the JSON result
is not the only file left on disk. -/
theorem C6_counterexample :
    (upload cfgD envOk none "j" (reqOf "a.mp3")).response.status = 200 ∧
    filesLeft (upload cfgD envOk none "j" (reqOf "a.mp3")).effects =
      ["uploads/j.mp3", "results/j.json"] ∧
    ["uploads/j.mp3", "results/j.json"] ≠ [path_join cfgD.RESULT_DIR ("j" ++ ".json")] :=
  ⟨rfl, rfl, by decide⟩

/-- Claim C6 amended: an accepted upload leaves on disk the saved upload
file, then the extracted WAV exactly when the upload is a video and
ffmpeg succeeded, then the JSON result file exactly when the request
succeeds - and nothing else; rejected requests leave nothing. -/
theorem C6_files_written (cfg : Config) (env : ExtWorld) (st : Option ModelHandle)
    (job_id : String) (p : FilePart) (fl ft : Option String)
    (hn : ¬ p.filename = "")
    (hmem : pyLower (splitext_ext p.filename) ∈ cfg.ALLOWED_EXT) :
    filesLeft (upload cfg env st job_id { file := some p, formLanguage := fl, formTask := ft }).effects =
      [path_join cfg.UPLOAD_DIR (job_id ++ pyLower (splitext_ext p.filename))] ++
      (if is_video (pyLower (splitext_ext p.filename)) = true ∧
          (env.runFfmpeg (ffmpegCmd
            (path_join cfg.UPLOAD_DIR (job_id ++ pyLower (splitext_ext p.filename)))
            (path_join cfg.UPLOAD_DIR (job_id ++ ".wav")))).returncode = 0
       then [path_join cfg.UPLOAD_DIR (job_id ++ ".wav")] else []) ++
      (if (upload cfg env st job_id { file := some p, formLanguage := fl, formTask := ft }).response.status = 200
       then [path_join cfg.RESULT_DIR (job_id ++ ".json")] else []) := by
  by_cases hv : is_video (pyLower (splitext_ext p.filename)) = true
  · by_cases hrc : (env.runFfmpeg (ffmpegCmd
        (path_join cfg.UPLOAD_DIR (job_id ++ pyLower (splitext_ext p.filename)))
        (path_join cfg.UPLOAD_DIR (job_id ++ ".wav")))).returncode = 0
    · rw [upload_accepted_video_ok cfg env st job_id p fl ft hn hmem hv hrc]
      rcases htr : env.transcribe (get_model cfg st).1
          (path_join cfg.UPLOAD_DIR (job_id ++ ".wav"))
          (reqLanguage { file := some p, formLanguage := fl, formTask := ft })
          (reqTask { file := some p, formLanguage := fl, formTask := ft }) with e | ⟨segs, info⟩
      · rw [transcribeStep_error cfg env st job_id p _ _ _ _ e htr]
        simp [filesLeft, filesWritten, hv, hrc]
      · rw [transcribeStep_ok cfg env st job_id p _ _ _ _ segs info htr]
        simp [filesLeft, filesWritten, hv, hrc]
    · rw [upload_accepted_video_ffmpeg_fail cfg env st job_id p fl ft hn hmem hv hrc]
      simp [filesLeft, filesWritten, hv, hrc]
  · rw [upload_accepted_nonvideo cfg env st job_id p fl ft hn hmem
        (Bool.not_eq_true _ |>.mp hv)]
    rcases htr : env.transcribe (get_model cfg st).1
        (path_join cfg.UPLOAD_DIR (job_id ++ pyLower (splitext_ext p.filename)))
        (reqLanguage { file := some p, formLanguage := fl, formTask := ft })
        (reqTask { file := some p, formLanguage := fl, formTask := ft }) with e | ⟨segs, info⟩
    · rw [transcribeStep_error cfg env st job_id p _ _ _ _ e htr]
      simp [filesLeft, filesWritten, hv]
    · rw [transcribeStep_ok cfg env st job_id p _ _ _ _ segs info htr]
      simp [filesLeft, filesWritten, hv]

/-- Witness for the amended C6: a concrete successful video upload writes
the saved upload, the extracted WAV and the JSON result, in that order. -/
theorem C6_witness :
    ¬ (FilePart.mk "v.mp4").filename = "" ∧
    pyLower (splitext_ext "v.mp4") ∈ cfgD.ALLOWED_EXT ∧
    filesLeft (upload cfgD envOk none "j" (reqOf "v.mp4")).effects =
      ["uploads/j.mp4", "uploads/j.wav", "results/j.json"] := by
  have h := C6_files_written cfgD envOk none "j" { filename := "v.mp4" } none none
    (by decide) (by decide)
  exact ⟨by decide, by decide, h.trans (by decide)⟩

/-- Claim C8: the health endpoint always answers 200 with the ok/service
body; the upload endpoint always answers JSON, either the done envelope
carrying job_id, status done and a result object, or a 400/500 JSON error
body. -/
theorem C8_endpoints_json (cfg : Config) (env : ExtWorld) (st : Option ModelHandle)
    (job_id : String) (req : UploadRequest) :
    healthz.status = 200 ∧
    healthz.body = .obj [("ok", .bool true), ("service", .str "asr-backend")] ∧
    (((upload cfg env st job_id req).response.status = 200 ∧
      getField (upload cfg env st job_id req).response.body "job_id" = some (.str job_id) ∧
      getField (upload cfg env st job_id req).response.body "status" = some (.str "done") ∧
      (∃ r, getField (upload cfg env st job_id req).response.body "result" = some r)) ∨
     (((upload cfg env st job_id req).response.status = 400 ∨
       (upload cfg env st job_id req).response.status = 500) ∧
      (∃ msg, getField (upload cfg env st job_id req).response.body "error" = some (.str msg)))) := by
  refine ⟨rfl, rfl, ?_⟩
  rcases req with ⟨file, fl, ft⟩
  rcases file with _ | p
  · right
    exact ⟨Or.inl rfl, "file is required", rfl⟩
  · by_cases hn : p.filename = ""
    · right
      have hb : upload cfg env st job_id { file := some p, formLanguage := fl, formTask := ft } =
          { response := { status := 400, body := .obj [("error", .str "file is required")] }
            effects := [], modelState := st } := by
        unfold upload
        simp [hn]
      rw [hb]
      exact ⟨Or.inl rfl, "file is required", rfl⟩
    · by_cases hmem : pyLower (splitext_ext p.filename) ∈ cfg.ALLOWED_EXT
      · by_cases hv : is_video (pyLower (splitext_ext p.filename)) = true
        · by_cases hrc : (env.runFfmpeg (ffmpegCmd
              (path_join cfg.UPLOAD_DIR (job_id ++ pyLower (splitext_ext p.filename)))
              (path_join cfg.UPLOAD_DIR (job_id ++ ".wav")))).returncode = 0
          · rw [upload_accepted_video_ok cfg env st job_id p fl ft hn hmem hv hrc]
            rcases htr : env.transcribe (get_model cfg st).1
                (path_join cfg.UPLOAD_DIR (job_id ++ ".wav"))
                (reqLanguage { file := some p, formLanguage := fl, formTask := ft })
                (reqTask { file := some p, formLanguage := fl, formTask := ft }) with e | ⟨segs, info⟩
            · rw [transcribeStep_error cfg env st job_id p _ _ _ _ e htr]
              right
              exact ⟨Or.inr rfl, "transcription failed", rfl⟩
            · rw [transcribeStep_ok cfg env st job_id p _ _ _ _ segs info htr]
              left
              exact ⟨rfl, rfl, rfl, _, rfl⟩
          · rw [upload_accepted_video_ffmpeg_fail cfg env st job_id p fl ft hn hmem hv hrc]
            right
            exact ⟨Or.inr rfl, "audio extraction failed", rfl⟩
        · rw [upload_accepted_nonvideo cfg env st job_id p fl ft hn hmem
              (Bool.not_eq_true _ |>.mp hv)]
          rcases htr : env.transcribe (get_model cfg st).1
              (path_join cfg.UPLOAD_DIR (job_id ++ pyLower (splitext_ext p.filename)))
              (reqLanguage { file := some p, formLanguage := fl, formTask := ft })
              (reqTask { file := some p, formLanguage := fl, formTask := ft }) with e | ⟨segs, info⟩
          · rw [transcribeStep_error cfg env st job_id p _ _ _ _ e htr]
            right
            exact ⟨Or.inr rfl, "transcription failed", rfl⟩
          · rw [transcribeStep_ok cfg env st job_id p _ _ _ _ segs info htr]
            left
            exact ⟨rfl, rfl, rfl, _, rfl⟩
      · right
        have hb : upload cfg env st job_id { file := some p, formLanguage := fl, formTask := ft } =
            { response := { status := 400
                            body := .obj [("error",
                              .str ("extension " ++ pyLower (splitext_ext p.filename) ++ " not allowed"))] }
              effects := [], modelState := st } := by
          unfold upload
          simp [hn, hmem]
        rw [hb]
        exact ⟨Or.inl rfl, _, rfl⟩
